import Mathlib

/-
Verification of the process-pipelining core of the `git-wrapper` tool.

The repository provides `src/git/commands/immutable.rs` (the domain commands
`list_aliases`, `list_configuration_settings`, `compact_summary_log`, ...)
and `src/cli/subcommands.rs` (the CLI dispatch `Subcommands::run`).  Those two
files are embedded faithfully below.  The execution-core helpers they call
(`Commands::pipe_from_command`, `Commands::double_ended_pipe`,
`Ripgrep::double_ended_pipe`, `Commands::pipe_to_column`,
`Git::parse_config_options`, `execute_git_command`, `normalize`,
`run_passthrough`, and the `GitCommandResult` type) live in modules that are
not part of `src/`; each of these is modelled from the design document and its
doc comment says so explicitly.

The pipeline world is modelled operationally: an `Env` describes how the OS
behaves (which spawn attempts succeed, what each process writes and its exit
status), and a `PipeState` records the observable trace of an invocation —
which processes were spawned with which argument vectors, which were waited
on, what terminal outputs were collected, and which bytes were written to the
caller's stdout.
-/

set_option autoImplicit false

namespace GitWrapper

/-- Modelled from the spec: the caller-visible outcome enumeration (`Git
Command Result`, declared outside `src/`): `Success`, or a typed failure
carrying the exit code and optionally the captured stderr bytes. -/
inductive GitCommandResult where
  | Success : GitCommandResult
  | Failure (exit_code : Int) (stderr : Option (List Nat)) : GitCommandResult
  deriving DecidableEq, Repr

/-- Errors of the execution core (spec §7): a program that could not be
started, or a failure writing final output to the caller's stdout. -/
inductive GwError where
  | spawnError (program : String)
  | writeError
  deriving DecidableEq, Repr

/-- The config-options bag used by `list_aliases` / `list_configuration_settings`
(fields as constructed in `src/cli/subcommands.rs`). -/
structure GitConfigOpts where
  show_origin : Bool
  show_scope : Bool
  deriving DecidableEq, Repr

/-- One spawned OS process as recorded in the invocation trace. -/
structure SpawnedProc where
  pid : Nat
  program : String
  args : List String
  deriving DecidableEq, Repr

/-- A captured standard-output handle (Rust `ChildStdout`): the pid of the
process it belongs to, and the byte stream it carries. -/
structure ChildStdout where
  pid : Nat
  stream : List Nat
  deriving DecidableEq, Repr

/-- The collected result of a terminal stage (Rust `std::process::Output`):
captured stdout bytes plus the process's exit status. -/
structure Output where
  stdout : List Nat
  status : Int
  deriving DecidableEq, Repr

/-- The two ripgrep configuration flags used by the execution core
(`RipgrepOptions`, declared outside `src/`). -/
inductive RipgrepOptions where
  | FixedStrings
  | InvertMatch
  deriving DecidableEq, Repr

/-- Modelled from the spec: the OS environment of one invocation.  The n-th
spawn attempt of the invocation succeeds iff `spawnOk n`; the process created
by the n-th attempt eventually exits with status `exitCode n` and maps its
stdin bytes to stdout bytes via `output n`; `callerInput` is the caller's
inherited stdin; `writeOk` says whether writing to the caller's stdout
succeeds. -/
structure Env where
  spawnOk : Nat → Bool
  exitCode : Nat → Int
  output : Nat → List Nat → List Nat
  callerInput : List Nat
  writeOk : Bool

/-- Observable trace of one invocation: the pid counter, every process spawned
(with its argument vector), the pids waited on (in order, with multiplicity),
every terminal-stage `Output` collected, the option list of every text-search
stage invocation, and the bytes written to the caller's stdout. -/
structure PipeState where
  nextPid : Nat
  spawned : List SpawnedProc
  waited : List Nat
  collected : List Output
  rgOptionLists : List (List RipgrepOptions)
  stdoutSink : List Nat
  deriving DecidableEq, Repr

/-- The state at the start of an invocation: nothing spawned, waited, collected
or written. -/
def initState : PipeState :=
  { nextPid := 0, spawned := [], waited := [], collected := [],
    rgOptionLists := [], stdoutSink := [] }

/-- Modelled from the spec: the Process Launcher (§4.1).  Spawns `program`
with `args`, wiring `input` to its stdin and capturing its stdout; on success
the new process is recorded in the trace and its captured stdout handle is
returned; if the OS refuses the spawn, a `spawnError` naming the program is
returned.  Nothing is waited on here. -/
def launch (env : Env) (st : PipeState) (program : String) (args : List String)
    (input : List Nat) : PipeState × Except GwError ChildStdout :=
  if env.spawnOk st.nextPid then
    ({ st with
        nextPid := st.nextPid + 1,
        spawned := st.spawned ++ [⟨st.nextPid, program, args⟩] },
      Except.ok ⟨st.nextPid, env.output st.nextPid input⟩)
  else
    (st, Except.error (GwError.spawnError program))

/-- Modelled from the spec: `Commands::pipe_from_command` (not in `src/`) —
the first chain stage: spawn `program` with the caller's inherited stdin and
return its captured stdout handle. -/
def Commands.pipe_from_command (env : Env) (st : PipeState) (program : String)
    (args : List String) : PipeState × Except GwError ChildStdout :=
  launch env st program args env.callerInput

/-- Modelled from the spec: `Commands::double_ended_pipe` (not in `src/`) —
the Pipe Chain Builder's `extend` (§4.2): spawn `program` with its stdin wired
to the previous stage's captured stdout (whose handle is consumed), returning
the new stage's captured stdout handle.  No stage is waited on here. -/
def Commands.double_ended_pipe (env : Env) (st : PipeState) (program : String)
    (prev : ChildStdout) (args : List String) : PipeState × Except GwError ChildStdout :=
  launch env st program args prev.stream

/-- Modelled from the spec: the command-line flag each ripgrep option maps to
(fixed-strings-match mode and invert-match mode, §6). -/
def RipgrepOptions.flag : RipgrepOptions → String
  | RipgrepOptions.FixedStrings => "--fixed-strings"
  | RipgrepOptions.InvertMatch => "--invert-match"

/-- Modelled from the spec: the argument vector of one ripgrep stage — the
configured mode flags followed by the search pattern, which must be last
(§4.3 trailing-required). -/
def ripgrepStageArgs (options : Option (List RipgrepOptions)) (pattern : String) :
    List String :=
  (options.getD []).map RipgrepOptions.flag ++ [pattern]

/-- Modelled from the spec: `Ripgrep::double_ended_pipe` (not in `src/`) —
one text-search pipeline stage, "treated exactly like any other program in
the chain": spawn `rg` on the previous stage's captured stdout with the flag
list built from `options` and `pattern` last. -/
def Ripgrep.double_ended_pipe (env : Env) (st : PipeState) (prev : ChildStdout)
    (pattern : String) (options : Option (List RipgrepOptions)) :
    PipeState × Except GwError ChildStdout :=
  launch env
    { st with rgOptionLists := st.rgOptionLists ++ [options.getD []] }
    "rg" (ripgrepStageArgs options pattern) prev.stream

/-- Modelled from the spec: `Commands::pipe_to_column` (not in `src/`) — the
terminal columnar-formatter stage plus the Pipe Chain Builder's `collect`
(§4.2): spawn `column` on the previous stage's captured stdout with the
configurable separator, read its stdout to completion, then wait on that
process; the `Output` (bytes and exit status) is returned even when the
status is non-zero — "the caller decides whether to surface them".  Only the
terminal process is waited on. -/
def Commands.pipe_to_column (env : Env) (st : PipeState) (prev : ChildStdout)
    (sep : Char) : PipeState × Except GwError Output :=
  if env.spawnOk st.nextPid then
    let out : Output := ⟨env.output st.nextPid prev.stream, env.exitCode st.nextPid⟩
    ({ st with
        nextPid := st.nextPid + 1,
        spawned := st.spawned ++ [⟨st.nextPid, "column", ["-t", "-s", toString sep]⟩],
        waited := st.waited ++ [st.nextPid],
        collected := st.collected ++ [out] },
      Except.ok out)
  else
    (st, Except.error (GwError.spawnError "column"))

/-- `io::stdout().write_all(bytes)` as used in `immutable.rs`: on success the
exact bytes are appended to the caller-visible stdout sink; on failure a
`writeError` is reported. -/
def write_stdout (env : Env) (st : PipeState) (bytes : List Nat) :
    PipeState × Except GwError Unit :=
  if env.writeOk then
    ({ st with stdoutSink := st.stdoutSink ++ bytes }, Except.ok ())
  else
    (st, Except.error GwError.writeError)

/-- Modelled from the spec: `Git::parse_config_options` (not in `src/`) — maps
the boolean toggles of the options bag to zero or more additional default
arguments, appended to the argument vector being built, before any user
arguments (§3 Config Options bag). -/
def Git.parse_config_options (options : GitConfigOpts) (args : List String) :
    List String :=
  (args ++ (if options.show_scope then ["--show-scope"] else []))
    ++ (if options.show_origin then ["--show-origin"] else [])

/-- Modelled from the spec: the Result/Status Normalizer (§4.4), declared
outside `src/`: zero exit status gives `Success`; non-zero gives the failure
variant carrying the exit code and the captured stderr when one was
captured. -/
def normalize (exit_status : Int) (captured_stderr : Option (List Nat)) :
    GitCommandResult :=
  if exit_status = 0 then GitCommandResult.Success
  else GitCommandResult.Failure exit_status captured_stderr

/-- Modelled from the spec: the Passthrough Executor (§4.5), declared outside
`src/`: spawn the program with stdin/stdout/stderr all inherited from the
caller (so nothing is captured), wait for it, and normalize its exit status
with no captured stderr. -/
def run_passthrough (env : Env) (program : String) (args : List String) :
    PipeState × Except GwError GitCommandResult :=
  if env.spawnOk initState.nextPid then
    ({ initState with
        nextPid := 1,
        spawned := [⟨0, program, args⟩],
        waited := [0] },
      Except.ok (normalize (env.exitCode 0) none))
  else
    (initState, Except.error (GwError.spawnError program))

/-- Modelled from the spec: the Command Assembler (§4.3), declared outside
`src/`: `default_args ++ user_args`, with the designated trailing argument
appended last when an operation contractually requires one. -/
def assemble (default_args user_args : List String) (trailing_required : Option String) :
    List String :=
  match trailing_required with
  | none => default_args ++ user_args
  | some x => default_args ++ user_args ++ [x]

/-- The `GitCommand` struct as used in `src/git/commands/immutable.rs`: a git
subcommand with its fixed default arguments and the caller-supplied ones. -/
structure GitCommand where
  subcommand : String
  default_args : List String
  user_args : List String
  deriving DecidableEq, Repr

/-- Modelled from the spec: the argument vector `execute_git_command` (not in
`src/`) hands to git — the subcommand followed by the assembled
`default_args ++ user_args` vector (§4.3, defaults first). -/
def GitCommand.assembledArgs (c : GitCommand) : List String :=
  c.subcommand :: assemble c.default_args c.user_args none

/-- The `GitCommand` value built by `ImmutableCommands::compact_summary_log`
(`immutable.rs` lines 19–31): subcommand `log`, default arguments
`--compact-summary` and `--max-count=NUM` with `NUM = num.unwrap_or(1)`, and
the caller's arguments as user arguments. -/
def compact_summary_log_command (num : Option Nat) (args : List String) : GitCommand :=
  { subcommand := "log",
    default_args := ["--compact-summary", "--max-count=" ++ toString (num.getD 1)],
    user_args := args }

/-- The default `num` documented by the help text of the `Last` subcommand in
`src/cli/subcommands.rs` ("The number of commits to list (else defaults to
10)"). -/
def last_documented_default : Nat := 10

/-- `ImmutableCommands::list_aliases` (`immutable.rs` lines 34–70), translated
step for step: build the `git config` argument vector (options flags, then
`--get-regexp` and the pattern `^alias\.` last), pipe it through `sed`
(strip the `alias.` prefix), optionally through `rg --fixed-strings FILTER`,
through `sed` again (replace the first space by a semicolon), into `column`,
and write the resulting table to the caller's stdout. -/
def list_aliases (env : Env) (filter : Option String) (options : GitConfigOpts) :
    PipeState × Except GwError GitCommandResult :=
  let config_args :=
    Git.parse_config_options options ["config"] ++ ["--get-regexp", "^alias\\."]
  match Commands.pipe_from_command env initState "git" config_args with
  | (st, Except.error e) => (st, Except.error e)
  | (st, Except.ok aliases) =>
  match Commands.double_ended_pipe env st "sed" aliases ["s/^alias\\.//"] with
  | (st, Except.error e) => (st, Except.error e)
  | (st, Except.ok aliases) =>
  match (match filter with
         | some pattern =>
             Ripgrep.double_ended_pipe env st aliases pattern
               (some [RipgrepOptions.FixedStrings])
         | none => (st, Except.ok aliases)) with
  | (st, Except.error e) => (st, Except.error e)
  | (st, Except.ok filtered_aliases) =>
  match Commands.double_ended_pipe env st "sed" filtered_aliases ["s/ /\\;/"] with
  | (st, Except.error e) => (st, Except.error e)
  | (st, Except.ok delimited_aliases) =>
  match Commands.pipe_to_column env st delimited_aliases ';' with
  | (st, Except.error e) => (st, Except.error e)
  | (st, Except.ok aliases_table) =>
  match write_stdout env st aliases_table.stdout with
  | (st, Except.error e) => (st, Except.error e)
  | (st, Except.ok _) => (st, Except.ok GitCommandResult.Success)

/-- `ImmutableCommands::list_configuration_settings` (`immutable.rs` lines
73–107), translated step for step: build the `git config --list` argument
vector (plus options flags), pipe it through `rg --invert-match ^alias\.`,
optionally through `rg --fixed-strings FILTER`, into `column` with separator
`=`, and write the resulting table to the caller's stdout. -/
def list_configuration_settings (env : Env) (filter : Option String)
    (options : GitConfigOpts) : PipeState × Except GwError GitCommandResult :=
  let config_args := Git.parse_config_options options ["config", "--list"]
  match Commands.pipe_from_command env initState "git" config_args with
  | (st, Except.error e) => (st, Except.error e)
  | (st, Except.ok configs) =>
  match Ripgrep.double_ended_pipe env st configs "^alias\\."
          (some [RipgrepOptions.InvertMatch]) with
  | (st, Except.error e) => (st, Except.error e)
  | (st, Except.ok configs_no_aliases) =>
  match (match filter with
         | some pattern =>
             Ripgrep.double_ended_pipe env st configs_no_aliases pattern
               (some [RipgrepOptions.FixedStrings])
         | none => (st, Except.ok configs_no_aliases)) with
  | (st, Except.error e) => (st, Except.error e)
  | (st, Except.ok filtered_configs) =>
  match Commands.pipe_to_column env st filtered_configs '=' with
  | (st, Except.error e) => (st, Except.error e)
  | (st, Except.ok config_table) =>
  match write_stdout env st config_table.stdout with
  | (st, Except.error e) => (st, Except.error e)
  | (st, Except.ok _) => (st, Except.ok GitCommandResult.Success)

/-- The `WhichFiles` selector of `src/cli/subcommands.rs`. -/
inductive WhichFiles where
  | All
  deriving DecidableEq, Repr

/-- The hook subcommands of `src/cli/subcommands.rs`. -/
inductive HookSubcommands where
  | PreCommit
  deriving DecidableEq, Repr

/-- The CLI subcommand enumeration of `src/cli/subcommands.rs` (payloads as in
the source; numeric fields as `Nat`). -/
inductive Subcommands where
  | A (args : Option (List String))
  | Aa
  | Aac (args : List String)
  | Aamend
  | Alias (filter : Option String) (options : GitConfigOpts)
  | Auc (args : List String)
  | Aumend
  | Author (num : Option Nat)
  | Conf (filter : Option String) (options : GitConfigOpts)
  | Hook (hook : HookSubcommands)
  | Files (num : Option Nat)
  | L (num : Option Nat) (args : List String)
  | Last (num : Option Nat) (args : List String)
  | Restore (which : Option WhichFiles) (args : List String)
  | ShowCmd (num : Option Nat) (args : List String)
  | Undo (num : Option Nat)
  | Unstage (which : Option WhichFiles) (args : List String)
  | Update (branch : String)
  deriving DecidableEq, Repr

/-- The call `Subcommands::run` dispatches to, with the exact arguments passed
(the domain command implementations live outside the execution core; the
outcome of a run is the outcome of the dispatched call). -/
inductive DispatchCall where
  | add (args : List String)
  | addUpdated
  | addAll
  | commitAll (args : List String)
  | commitAllAmended
  | listAliases (filter : Option String) (options : GitConfigOpts)
  | commitAllUpdatedFiles (args : List String)
  | commitAllUpdatedFilesAmended
  | updateCommitAuthor (num : Option Nat)
  | listConfigurationSettings (filter : Option String) (options : GitConfigOpts)
  | preCommitHook
  | showFiles (num : Option Nat)
  | oneLineLog (num : Option Nat) (args : List String)
  | compactSummaryLog (num : Option Nat) (args : List String)
  | restoreAll
  | restore (args : List String)
  | showCommit (num : Option Nat) (args : List String)
  | undoCommits (num : Option Nat)
  | unstageAll
  | unstage (args : List String)
  | updateBranchFromRemote (branch : String)
  deriving DecidableEq, Repr

/-- `Subcommands::run` (`src/cli/subcommands.rs` lines 163–217), translated
arm for arm into the call it dispatches. -/
def Subcommands.run : Subcommands → DispatchCall
  | Subcommands.A (some args) => DispatchCall.add args
  | Subcommands.A none => DispatchCall.addUpdated
  | Subcommands.Aa => DispatchCall.addAll
  | Subcommands.Aac args => DispatchCall.commitAll args
  | Subcommands.Aamend => DispatchCall.commitAllAmended
  | Subcommands.Alias filter options => DispatchCall.listAliases filter options
  | Subcommands.Auc args => DispatchCall.commitAllUpdatedFiles args
  | Subcommands.Aumend => DispatchCall.commitAllUpdatedFilesAmended
  | Subcommands.Author num => DispatchCall.updateCommitAuthor num
  | Subcommands.Conf filter options =>
      DispatchCall.listConfigurationSettings filter options
  | Subcommands.Hook HookSubcommands.PreCommit => DispatchCall.preCommitHook
  | Subcommands.Files num => DispatchCall.showFiles num
  | Subcommands.L num args => DispatchCall.oneLineLog num args
  | Subcommands.Last num args => DispatchCall.compactSummaryLog num args
  | Subcommands.Restore which args =>
      match which with
      | some WhichFiles.All => DispatchCall.restoreAll
      | none => DispatchCall.restore args
  | Subcommands.ShowCmd num args => DispatchCall.showCommit num args
  | Subcommands.Undo num => DispatchCall.undoCommits num
  | Subcommands.Unstage which args =>
      match which with
      | some WhichFiles.All => DispatchCall.unstageAll
      | none => DispatchCall.unstage args
  | Subcommands.Update branch => DispatchCall.updateBranchFromRemote branch

/-- An environment in which every spawn attempt succeeds, every process exits
with status 0 and writes nothing, and writing to the caller's stdout
succeeds. -/
def envAllOk : Env :=
  ⟨fun _ => true, fun _ => 0, fun _ _ => [], [], true⟩

/-- An environment in which every spawn attempt succeeds and writing to the
caller's stdout succeeds, but every process exits with the non-zero status
1. -/
def envExit1 : Env :=
  ⟨fun _ => true, fun _ => 1, fun _ _ => [], [], true⟩

/-- An environment in which every process exits with status 7. -/
def envExit7 : Env :=
  ⟨fun _ => true, fun _ => 7, fun _ _ => [], [], true⟩

/-- An environment in which only the first two spawn attempts succeed. -/
def envFailFrom2 : Env :=
  ⟨fun n => decide (n < 2), fun _ => 0, fun _ _ => [], [], true⟩

/-- An environment in which each process prepends its pid to its input bytes,
so stage outputs are pairwise distinct and traceable. -/
def envBytes : Env :=
  ⟨fun _ => true, fun _ => 0, fun pid input => pid :: input, [9], true⟩

/-- The options bag with both toggles off. -/
def optsFF : GitConfigOpts := ⟨false, false⟩

/-- C1, counterexample: in an environment where every spawn succeeds but every
process exits with status 1, `list_aliases` collects the terminal stage's
non-zero exit status 1 yet still returns `Success` — a stage of the chain
terminated with a non-zero exit status and the caller-visible result is not a
failure. -/
theorem c1_nonzero_stage_success_counterexample :
    (list_aliases envExit1 none optsFF).1.collected.map Output.status = [1] ∧
    (list_aliases envExit1 none optsFF).2 = Except.ok GitCommandResult.Success :=
  ⟨rfl, rfl⟩

/-- C1 (amended): `list_aliases` and `list_configuration_settings` return
`Success` whenever every spawn attempt and the final stdout write succeed —
for every environment, hence regardless of the exit statuses of the chain's
stages, which are never inspected; a stage exiting non-zero does not make the
caller-visible result a failure. -/
theorem c1_success_ignores_stage_status (env : Env) (filter : Option String)
    (options : GitConfigOpts) (hs : ∀ n, env.spawnOk n = true)
    (hw : env.writeOk = true) :
    (list_aliases env filter options).2 = Except.ok GitCommandResult.Success ∧
    (list_configuration_settings env filter options).2 =
      Except.ok GitCommandResult.Success := by
  cases filter <;>
    simp [list_aliases, list_configuration_settings, Commands.pipe_from_command,
      Commands.double_ended_pipe, Ripgrep.double_ended_pipe,
      Commands.pipe_to_column, write_stdout, launch, initState, hs, hw]

/-- Witness for C1's amended theorem at a concrete input. -/
theorem c1_success_ignores_stage_status_witness :
    (list_aliases envAllOk none optsFF).2 = Except.ok GitCommandResult.Success ∧
    (list_configuration_settings envAllOk none optsFF).2 =
      Except.ok GitCommandResult.Success :=
  c1_success_ignores_stage_status envAllOk none optsFF (fun _ => rfl) rfl

/-- C2, at the failing input (`list_aliases` with no filter, every spawn and
the final write succeeding): four processes are spawned (`git`, `sed`, `sed`,
`column`, pids 0–3) but only the terminal `column` process (pid 3) is ever
waited on; in particular the `git` child (pid 0) is spawned and never waited,
so the invocation leaves unwaited (zombie) children. -/
theorem c2_unwaited_children :
    (list_aliases envAllOk none optsFF).1.spawned.map SpawnedProc.program =
      ["git", "sed", "sed", "column"] ∧
    (list_aliases envAllOk none optsFF).1.spawned.map SpawnedProc.pid =
      [0, 1, 2, 3] ∧
    (list_aliases envAllOk none optsFF).1.waited = [3] ∧
    (0 : Nat) ∉ (list_aliases envAllOk none optsFF).1.waited ∧
    (list_aliases envAllOk none optsFF).2 = Except.ok GitCommandResult.Success :=
  ⟨rfl, rfl, rfl, by decide, rfl⟩

/-- C5: `normalize` maps exit status 0 to `Success` and any non-zero status to
the failure variant carrying that exact status and the captured stderr; and
`run_passthrough` on a program whose process exits with code 7 yields a
failure result carrying exit code 7 (with no captured stderr, since all
streams are inherited). -/
theorem c5_normalize_exit_status (s : Int) (c : Option (List Nat)) :
    normalize 0 c = GitCommandResult.Success ∧
    (s ≠ 0 → normalize s c = GitCommandResult.Failure s c) ∧
    (∀ (env : Env) (program : String) (args : List String),
      env.spawnOk 0 = true → env.exitCode 0 = 7 →
      (run_passthrough env program args).2 =
        Except.ok (GitCommandResult.Failure 7 none)) := by
  refine ⟨rfl, fun h => by simp [normalize, h], fun env p a hs he => ?_⟩
  simp [run_passthrough, initState, hs, he, normalize]

/-- Witness for C5 at concrete inputs, among them `run_passthrough` in an
environment whose process exits with status 7. -/
theorem c5_normalize_exit_status_witness :
    normalize 0 none = GitCommandResult.Success ∧
    normalize 7 none = GitCommandResult.Failure 7 none ∧
    (run_passthrough envExit7 "git" []).2 =
      Except.ok (GitCommandResult.Failure 7 none) :=
  ⟨(c5_normalize_exit_status 7 none).1,
   (c5_normalize_exit_status 7 none).2.1 (by decide),
   (c5_normalize_exit_status 7 none).2.2 envExit7 "git" [] rfl rfl⟩

/-- C6: pipeline construction is strictly left-to-right and fail-fast.  For
each position at which a stage-construction step can fail (its spawn being
refused), the function returns exactly the `spawnError` of that stage's
program, and the processes spawned are exactly the stages strictly before the
failing one — no stage after it is ever created.  Stage order: `list_aliases`
(with a filter) runs `git`, `sed`, `rg`, `sed`, `column`;
`list_configuration_settings` (with a filter) runs `git`, `rg`, `rg`,
`column`. -/
theorem c6_fail_fast (env : Env) (pat : String) (options : GitConfigOpts) :
    (env.spawnOk 0 = false →
      (list_aliases env (some pat) options).2 =
        Except.error (GwError.spawnError "git") ∧
      (list_aliases env (some pat) options).1.spawned = []) ∧
    (env.spawnOk 0 = true → env.spawnOk 1 = false →
      (list_aliases env (some pat) options).2 =
        Except.error (GwError.spawnError "sed") ∧
      (list_aliases env (some pat) options).1.spawned.map SpawnedProc.program =
        ["git"]) ∧
    (env.spawnOk 0 = true → env.spawnOk 1 = true → env.spawnOk 2 = false →
      (list_aliases env (some pat) options).2 =
        Except.error (GwError.spawnError "rg") ∧
      (list_aliases env (some pat) options).1.spawned.map SpawnedProc.program =
        ["git", "sed"]) ∧
    (env.spawnOk 0 = true → env.spawnOk 1 = true → env.spawnOk 2 = true →
      env.spawnOk 3 = false →
      (list_aliases env (some pat) options).2 =
        Except.error (GwError.spawnError "sed") ∧
      (list_aliases env (some pat) options).1.spawned.map SpawnedProc.program =
        ["git", "sed", "rg"]) ∧
    (env.spawnOk 0 = true → env.spawnOk 1 = true → env.spawnOk 2 = true →
      env.spawnOk 3 = true → env.spawnOk 4 = false →
      (list_aliases env (some pat) options).2 =
        Except.error (GwError.spawnError "column") ∧
      (list_aliases env (some pat) options).1.spawned.map SpawnedProc.program =
        ["git", "sed", "rg", "sed"]) ∧
    (env.spawnOk 0 = false →
      (list_configuration_settings env (some pat) options).2 =
        Except.error (GwError.spawnError "git") ∧
      (list_configuration_settings env (some pat) options).1.spawned = []) ∧
    (env.spawnOk 0 = true → env.spawnOk 1 = false →
      (list_configuration_settings env (some pat) options).2 =
        Except.error (GwError.spawnError "rg") ∧
      (list_configuration_settings env (some pat) options).1.spawned.map
        SpawnedProc.program = ["git"]) ∧
    (env.spawnOk 0 = true → env.spawnOk 1 = true → env.spawnOk 2 = false →
      (list_configuration_settings env (some pat) options).2 =
        Except.error (GwError.spawnError "rg") ∧
      (list_configuration_settings env (some pat) options).1.spawned.map
        SpawnedProc.program = ["git", "rg"]) ∧
    (env.spawnOk 0 = true → env.spawnOk 1 = true → env.spawnOk 2 = true →
      env.spawnOk 3 = false →
      (list_configuration_settings env (some pat) options).2 =
        Except.error (GwError.spawnError "column") ∧
      (list_configuration_settings env (some pat) options).1.spawned.map
        SpawnedProc.program = ["git", "rg", "rg"]) := by
  refine ⟨fun h0 => ?_, fun h0 h1 => ?_, fun h0 h1 h2 => ?_,
    fun h0 h1 h2 h3 => ?_, fun h0 h1 h2 h3 h4 => ?_, fun h0 => ?_,
    fun h0 h1 => ?_, fun h0 h1 h2 => ?_, fun h0 h1 h2 h3 => ?_⟩ <;>
  simp [list_aliases, list_configuration_settings, Commands.pipe_from_command,
    Commands.double_ended_pipe, Ripgrep.double_ended_pipe,
    Commands.pipe_to_column, write_stdout, launch, initState, *]

/-- Witness for C6 at a concrete input: only the first two spawn attempts
succeed, so `list_aliases` with a filter fails at its third stage with the
`rg` spawn error, having created exactly the `git` and `sed` stages. -/
theorem c6_fail_fast_witness :
    (list_aliases envFailFrom2 (some "p") optsFF).2 =
      Except.error (GwError.spawnError "rg") ∧
    (list_aliases envFailFrom2 (some "p") optsFF).1.spawned.map
      SpawnedProc.program = ["git", "sed"] :=
  (c6_fail_fast envFailFrom2 "p" optsFF).2.2.1 rfl rfl rfl

/-- The mutual-exclusion property of one text-search stage's option list: it
holds the fixed-strings mode or the invert-match mode, and never both. -/
def rg_mode_exclusive (opts : List RipgrepOptions) : Prop :=
  (RipgrepOptions.FixedStrings ∈ opts ∨ RipgrepOptions.InvertMatch ∈ opts) ∧
  ¬(RipgrepOptions.FixedStrings ∈ opts ∧ RipgrepOptions.InvertMatch ∈ opts)

/-- C7: in every invocation of the text-search stage made by `list_aliases`
or `list_configuration_settings` — in every environment, on success and on
failure paths, with and without a filter — the option list passed to the
stage contains the fixed-strings mode or the invert-match mode, and never
both in the same invocation. -/
theorem c7_rg_modes_exclusive (env : Env) (filter : Option String)
    (options : GitConfigOpts) :
    (∀ opts ∈ (list_aliases env filter options).1.rgOptionLists,
      rg_mode_exclusive opts) ∧
    (∀ opts ∈ (list_configuration_settings env filter options).1.rgOptionLists,
      rg_mode_exclusive opts) := by
  cases filter <;>
    cases h0 : env.spawnOk 0 <;> cases h1 : env.spawnOk 1 <;>
    cases h2 : env.spawnOk 2 <;> cases h3 : env.spawnOk 3 <;>
    cases h4 : env.spawnOk 4 <;> cases hw : env.writeOk <;>
    simp [list_aliases, list_configuration_settings, Commands.pipe_from_command,
      Commands.double_ended_pipe, Ripgrep.double_ended_pipe,
      Commands.pipe_to_column, write_stdout, launch, initState,
      rg_mode_exclusive, h0, h1, h2, h3, h4, hw]

/-- Witness for C7 at a concrete input: the option list of the filtering
text-search stage of a concrete `list_aliases` run. -/
theorem c7_rg_modes_exclusive_witness :
    rg_mode_exclusive [RipgrepOptions.FixedStrings] :=
  (c7_rg_modes_exclusive envAllOk (some "p") optsFF).1
    [RipgrepOptions.FixedStrings] (by decide)

/-- C8: whenever `list_aliases` or `list_configuration_settings` returns
`Success` (so the terminal columnar-formatter stage was created and collected
and the write succeeded), exactly one terminal `Output` was collected and the
byte sequence written to the caller's stdout equals that output's captured
stdout bytes exactly. -/
theorem c8_stdout_verbatim (env : Env) (filter : Option String)
    (options : GitConfigOpts) :
    ((list_aliases env filter options).2 = Except.ok GitCommandResult.Success →
      (list_aliases env filter options).1.collected.map Output.stdout =
        [(list_aliases env filter options).1.stdoutSink]) ∧
    ((list_configuration_settings env filter options).2 =
        Except.ok GitCommandResult.Success →
      (list_configuration_settings env filter options).1.collected.map
        Output.stdout =
        [(list_configuration_settings env filter options).1.stdoutSink]) := by
  cases filter <;>
    cases h0 : env.spawnOk 0 <;> cases h1 : env.spawnOk 1 <;>
    cases h2 : env.spawnOk 2 <;> cases h3 : env.spawnOk 3 <;>
    cases h4 : env.spawnOk 4 <;> cases hw : env.writeOk <;>
    simp [list_aliases, list_configuration_settings, Commands.pipe_from_command,
      Commands.double_ended_pipe, Ripgrep.double_ended_pipe,
      Commands.pipe_to_column, write_stdout, launch, initState,
      h0, h1, h2, h3, h4, hw]

/-- Witness for C8 at a concrete input whose stages produce distinct non-empty
byte streams. -/
theorem c8_stdout_verbatim_witness :
    (list_aliases envBytes none optsFF).1.collected.map Output.stdout =
      [(list_aliases envBytes none optsFF).1.stdoutSink] :=
  (c8_stdout_verbatim envBytes none optsFF).1 rfl

/-- C3, counterexample: with `default_args = []`, `user_args = ["p"]` and
`trailing_required = "p"`, the assembled vector is `["p", "p"]` — its last
element is `"p"`, but `"p"` also occurs at position 0, so the trailing
argument does occur at another position when it already appears in
`user_args`. -/
theorem c3_trailing_duplicate_counterexample :
    assemble [] ["p"] (some "p") = ["p", "p"] ∧
    (assemble [] ["p"] (some "p")).count "p" = 2 := by
  decide

/-- C3 (amended): for every `default_args`, `user_args` and trailing argument
`x`, the vector assembled with `trailing_required = x` has `x` as its last
element; and provided `x` occurs in neither `default_args` nor `user_args`,
`x` occurs exactly once (hence at no other position). -/
theorem c3_trailing_required_last (d u : List String) (x : String) :
    (assemble d u (some x)).getLast? = some x ∧
    (x ∉ d → x ∉ u → (assemble d u (some x)).count x = 1) := by
  constructor
  · simp [assemble, List.getLast?_append]
  · intro hd hu
    simp [assemble, List.count_append, List.count_eq_zero.mpr hd,
      List.count_eq_zero.mpr hu]

/-- Witness for C3's amended theorem at a concrete input. -/
theorem c3_trailing_required_last_witness :
    (assemble ["-a"] ["-b"] (some "pat")).getLast? = some "pat" ∧
    (assemble ["-a"] ["-b"] (some "pat")).count "pat" = 1 :=
  ⟨(c3_trailing_required_last ["-a"] ["-b"] "pat").1,
   (c3_trailing_required_last ["-a"] ["-b"] "pat").2 (by decide) (by decide)⟩

/-- C4: for every `default_args` and `user_args`, `assemble` without a
trailing argument yields exactly `default_args ++ user_args`: the length is
the sum of the two lengths, and the element at every position `i` is the
`i`-th element of `default_args` when `i` is within it and the
`(i - |default_args|)`-th element of `user_args` otherwise — nothing dropped,
added, duplicated or reordered. -/
theorem c4_assemble_concat (d u : List String) :
    assemble d u none = d ++ u ∧
    (assemble d u none).length = d.length + u.length ∧
    ∀ i : Nat, (assemble d u none)[i]? =
      if i < d.length then d[i]? else u[i - d.length]? := by
  refine ⟨rfl, by simp [assemble], fun i => ?_⟩
  show (d ++ u)[i]? = if i < d.length then d[i]? else u[i - d.length]?
  exact List.getElem?_append

/-- C9: the `GitCommand` built by `compact_summary_log` contains the default
argument `--max-count=1` when `num` is `none` (its default-argument list is
exactly `["--compact-summary", "--max-count=1"]`), and `--max-count=n` when
`num = some n`; the help text of the `Last` subcommand nonetheless documents
the default as 10, and `--max-count=10` is not among the default arguments
when `num` is `none`. -/
theorem c9_max_count_default_one (args : List String) (n : Nat) :
    "--max-count=1" ∈ (compact_summary_log_command none args).assembledArgs ∧
    (compact_summary_log_command none args).default_args =
      ["--compact-summary", "--max-count=1"] ∧
    ("--max-count=" ++ toString n) ∈
      (compact_summary_log_command (some n) args).assembledArgs ∧
    last_documented_default = 10 ∧
    ("--max-count=" ++ toString last_documented_default) ∉
      (compact_summary_log_command none args).default_args := by
  have h1 : ("--max-count=" ++ toString (1 : Nat)) = "--max-count=1" := by decide
  have h2 : (compact_summary_log_command none args).default_args =
      ["--compact-summary", "--max-count=1"] := by
    simp only [compact_summary_log_command, Option.getD_none]
    decide
  refine ⟨?_, h2, ?_, rfl, ?_⟩
  · simp [compact_summary_log_command, GitCommand.assembledArgs, assemble,
      Option.getD_none, h1]
  · simp [compact_summary_log_command, GitCommand.assembledArgs, assemble,
      Option.getD_some]
  · rw [h2]
    decide

/-- C10: when the `which` field is `Some(All)`, the `Restore` and `Unstage`
subcommands dispatch to `restore_all` / `unstage_all`, and the `args` vector
has no effect: any two argument vectors produce the same dispatched call. -/
theorem c10_which_all_ignores_args (a1 a2 : List String) :
    Subcommands.run (Subcommands.Restore (some WhichFiles.All) a1) =
      Subcommands.run (Subcommands.Restore (some WhichFiles.All) a2) ∧
    Subcommands.run (Subcommands.Restore (some WhichFiles.All) a1) =
      DispatchCall.restoreAll ∧
    Subcommands.run (Subcommands.Unstage (some WhichFiles.All) a1) =
      Subcommands.run (Subcommands.Unstage (some WhichFiles.All) a2) ∧
    Subcommands.run (Subcommands.Unstage (some WhichFiles.All) a1) =
      DispatchCall.unstageAll :=
  ⟨rfl, rfl, rfl, rfl⟩

end GitWrapper
